import Mathlib

/-!
Shallow embedding of the server-lifecycle core of the nova-api-openstack
repository (FastAPI + SQLAlchemy service managing VM records).

Embedded source files:
- app/models/server.py        (ServerStatus enum)
- app/infra/openstack/base.py (ServerRecord, FlavorRecord, ImageRecord)
- app/infra/openstack/mock_client.py (MockOpenStackClient: the reference
  compute backend over the database session; the database is modelled as
  an explicit `MockState` threaded through each operation)
- app/services/server_service.py (ServerService: the lifecycle engine,
  VALID_TRANSITIONS)
- app/schemas/server.py       (ActionType, ServerAction and its validator)
- app/schemas/common.py       (PaginatedResponse.build)
- app/core/exceptions.py      (the typed error taxonomy)

Modelling conventions: timestamps (`datetime.now(UTC)`) are supplied as a
`now : Nat` argument; `uuid.uuid4()` is supplied as a fresh-id argument;
`random.randint` is supplied as a draw `r : Nat` reduced into the requested
inclusive range; an IPv4 address is kept as its 32-bit numeric value (the
source renders it in dotted-quad form, an injective encoding, so range
facts transfer). Python exceptions become `Except` values; a `ValueError`
raised by the mock client, which no application handler catches, is the
`valueError` constructor.
-/

namespace NovaApi

/-- ServerStatus enum from app/models/server.py. -/
inductive ServerStatus where
  | BUILD
  | ACTIVE
  | SHUTOFF
  | REBOOT
  | RESIZE
  | VERIFY_RESIZE
  | ERROR
  | DELETED
  deriving DecidableEq, Repr

/-- The `.value` of the Python str enum member. -/
def ServerStatus.value : ServerStatus → String
  | .BUILD => "BUILD"
  | .ACTIVE => "ACTIVE"
  | .SHUTOFF => "SHUTOFF"
  | .REBOOT => "REBOOT"
  | .RESIZE => "RESIZE"
  | .VERIFY_RESIZE => "VERIFY_RESIZE"
  | .ERROR => "ERROR"
  | .DELETED => "DELETED"

/-- ServerRecord dataclass from app/infra/openstack/base.py (the DB row
`Server` of app/models/server.py carries the same fields). -/
structure ServerRecord where
  id : String
  name : String
  status : ServerStatus
  flavor_id : String
  image_id : String
  ip_address : Option Nat
  created_at : Nat
  updated_at : Nat
  deriving DecidableEq, Repr

/-- FlavorRecord dataclass from app/infra/openstack/base.py. -/
structure FlavorRecord where
  id : String
  name : String
  vcpus : Nat
  ram_mb : Nat
  disk_gb : Nat
  deriving DecidableEq, Repr

/-- ImageRecord dataclass from app/infra/openstack/base.py. -/
structure ImageRecord where
  id : String
  name : String
  os_distro : String
  min_disk_gb : Nat
  size_bytes : Nat
  status : String
  deriving DecidableEq, Repr

/-- The database contents backing MockOpenStackClient: the servers,
flavors and images tables. -/
structure MockState where
  servers : List ServerRecord
  flavors : List FlavorRecord
  images : List ImageRecord
  deriving DecidableEq, Repr

/-- Error taxonomy from app/core/exceptions.py. `invalidStateTransition`
carries `current_status` and `action` exactly as the details dict of
InvalidStateTransitionError does. `valueError` models a Python ValueError
escaping the mock client (mapped to HTTP 500 by the generic handler, not
to any typed API error). -/
inductive AppError where
  | serverNotFound (server_id : String)
  | flavorNotFound (flavor_id : String)
  | imageNotFound (image_id : String)
  | invalidStateTransition (current_status : String) (action : String)
  | serverDeleted (server_id : String)
  | valueError (msg : String)
  deriving DecidableEq, Repr

/-- `_random_ip` from mock_client.py:
`str(ipaddress.IPv4Address(random.randint(0x0A000001, 0x0AFFFFFF)))`,
with the random draw `r` supplied and reduced into the inclusive range
[0x0A000001, 0x0AFFFFFF] (which has 0xFFFFFF elements). -/
def _random_ip (r : Nat) : Nat :=
  0x0A000001 + r % 0xFFFFFF

/-- `_ACTION_TRANSITIONS` from mock_client.py: the mock compute backend
transition dict. Statuses absent from the dict map to `none` (Python
`dict.get` with default). Note it has no VERIFY_RESIZE entry. -/
def _ACTION_TRANSITIONS : ServerStatus → Option (List (String × ServerStatus))
  | .ACTIVE => some [("stop", .SHUTOFF), ("reboot", .ACTIVE), ("resize", .ACTIVE)]
  | .SHUTOFF => some [("start", .ACTIVE)]
  | _ => none

/-- `VALID_TRANSITIONS` from server_service.py: the lifecycle engine state
machine. BUILD, REBOOT and RESIZE are present with empty dicts
(system-managed); ERROR and DELETED are not keys at all. -/
def VALID_TRANSITIONS : ServerStatus → Option (List (String × ServerStatus))
  | .ACTIVE => some [("stop", .SHUTOFF), ("reboot", .ACTIVE), ("resize", .ACTIVE)]
  | .SHUTOFF => some [("start", .ACTIVE)]
  | .BUILD => some []
  | .REBOOT => some []
  | .RESIZE => some []
  | .VERIFY_RESIZE => some [("confirm_resize", .ACTIVE)]
  | _ => none

/-- Replace the single row selected by primary key, as the ORM update of a
`scalar_one_or_none` result does (the first — under the PK constraint the
only — row whose id matches). -/
def updateById (servers : List ServerRecord) (server_id : String)
    (f : ServerRecord → ServerRecord) : List ServerRecord :=
  match servers with
  | [] => []
  | s :: rest =>
    if s.id == server_id then f s :: rest
    else s :: updateById rest server_id f

/-- Ordering used by `list_servers`: most recently created first
(`order_by(Server.created_at.desc())`). -/
def createdDesc (a b : ServerRecord) : Prop :=
  b.created_at ≤ a.created_at

instance : DecidableRel createdDesc :=
  fun a b => Nat.decLe b.created_at a.created_at

instance : IsTotal ServerRecord createdDesc :=
  ⟨fun a b => (Nat.le_total b.created_at a.created_at).imp id id⟩

instance : IsTrans ServerRecord createdDesc :=
  ⟨fun _ _ _ hab hbc => Nat.le_trans hbc hab⟩

namespace MockOpenStackClient

/-- `get_server`: `select(Server).where(Server.id == server_id)` with
`scalar_one_or_none`. -/
def get_server (st : MockState) (server_id : String) : Option ServerRecord :=
  st.servers.find? (fun s => s.id == server_id)

/-- `get_flavor`: lookup by primary key in the flavors table. -/
def get_flavor (st : MockState) (flavor_id : String) : Option FlavorRecord :=
  st.flavors.find? (fun f => f.id == flavor_id)

/-- `get_image`: lookup by primary key in the images table. -/
def get_image (st : MockState) (image_id : String) : Option ImageRecord :=
  st.images.find? (fun i => i.id == image_id)

/-- `create_server`: builds a row with a fresh uuid, status ACTIVE (the
mock skips the BUILD phase), a random 10.x.y.z address, and inserts it;
the session fills created_at and updated_at with the current time. -/
def create_server (st : MockState) (newId name flavor_id image_id : String)
    (r now : Nat) : ServerRecord × MockState :=
  let server : ServerRecord :=
    { id := newId, name := name, status := .ACTIVE,
      flavor_id := flavor_id, image_id := image_id,
      ip_address := some (_random_ip r),
      created_at := now, updated_at := now }
  (server, { st with servers := st.servers ++ [server] })

/-- `list_servers`: counts and returns the rows whose status is not
DELETED, ordered by created_at descending, with OFFSET applied before
LIMIT. The SQL sort is modelled by insertion sort under `createdDesc`. -/
def list_servers (st : MockState) (limit offset : Nat) :
    List ServerRecord × Nat :=
  let filtered := st.servers.filter (fun s => s.status != ServerStatus.DELETED)
  let ordered := List.insertionSort createdDesc filtered
  ((ordered.drop offset).take limit, filtered.length)

/-- `update_server`: raises ValueError when the row is absent; otherwise
sets the name, stamps updated_at, and returns the refreshed row. -/
def update_server (st : MockState) (server_id name : String) (now : Nat) :
    Except AppError ServerRecord × MockState :=
  match get_server st server_id with
  | none => (.error (.valueError ("Server " ++ server_id ++ " not found")), st)
  | some server =>
    let updated := { server with name := name, updated_at := now }
    (.ok updated,
     { st with servers := updateById st.servers server_id (fun _ => updated) })

/-- `delete_server`: raises ValueError when the row is absent; otherwise
sets status to DELETED and stamps updated_at (the row is retained). -/
def delete_server (st : MockState) (server_id : String) (now : Nat) :
    Except AppError Unit × MockState :=
  match get_server st server_id with
  | none => (.error (.valueError ("Server " ++ server_id ++ " not found")), st)
  | some server =>
    let updated := { server with status := ServerStatus.DELETED, updated_at := now }
    (.ok (),
     { st with servers := updateById st.servers server_id (fun _ => updated) })

/-- `perform_action`: raises ValueError when the row is absent or when
`_ACTION_TRANSITIONS` has no entry for (status, action); otherwise applies
the new status, for resize with a flavor_id kwarg also the new flavor, and
stamps updated_at. `kwargs_flavor` is the optional flavor_id kwarg. -/
def perform_action (st : MockState) (server_id action : String)
    (kwargs_flavor : Option String) (now : Nat) :
    Except AppError ServerRecord × MockState :=
  match get_server st server_id with
  | none => (.error (.valueError ("Server " ++ server_id ++ " not found")), st)
  | some server =>
    match ((_ACTION_TRANSITIONS server.status).getD []).lookup action with
    | none =>
      (.error (.valueError ("Cannot perform action " ++ action ++
        " on server in status " ++ server.status.value)), st)
    | some new_status =>
      let s1 := { server with status := new_status }
      let s2 :=
        match kwargs_flavor with
        | some f => if action == "resize" then { s1 with flavor_id := f } else s1
        | none => s1
      let updated := { s2 with updated_at := now }
      (.ok updated,
       { st with servers := updateById st.servers server_id (fun _ => updated) })

end MockOpenStackClient

/-- ServerCreate request schema from app/schemas/server.py. -/
structure ServerCreate where
  name : String
  flavor_id : String
  image_id : String
  deriving DecidableEq, Repr

/-- ServerUpdate request schema from app/schemas/server.py. -/
structure ServerUpdate where
  name : Option String
  deriving DecidableEq, Repr

/-- ActionType from app/schemas/server.py:
`Literal["start", "stop", "reboot", "resize"]`. -/
inductive ActionType where
  | start
  | stop
  | reboot
  | resize
  deriving DecidableEq, Repr

/-- The string a well-formed ActionType literal carries. -/
def ActionType.toStr : ActionType → String
  | .start => "start"
  | .stop => "stop"
  | .reboot => "reboot"
  | .resize => "resize"

/-- ServerAction request schema from app/schemas/server.py: the action is
schema-restricted to ActionType; flavor_id is optional at the field level
and constrained by the model validator. -/
structure ServerAction where
  action : ActionType
  flavor_id : Option String
  deriving DecidableEq, Repr

/-- Python truthiness of `str | None`: None and the empty string are falsy. -/
def truthy : Option String → Bool
  | none => false
  | some s => !(s == "")

/-- `validate_resize_requires_flavor` from app/schemas/server.py: resize
requires a truthy flavor_id; every other action forbids a flavor_id. -/
def ServerAction.valid (p : ServerAction) : Bool :=
  if p.action == .resize && !(truthy p.flavor_id) then false
  else if p.action != .resize && !(p.flavor_id == none) then false
  else true

namespace ServerService

open MockOpenStackClient

/-- `ServerService.create`: validates that the flavor and the image exist,
then delegates to the backend. -/
def create (st : MockState) (payload : ServerCreate) (newId : String)
    (r now : Nat) : Except AppError ServerRecord × MockState :=
  match get_flavor st payload.flavor_id with
  | none => (.error (.flavorNotFound payload.flavor_id), st)
  | some _ =>
    match get_image st payload.image_id with
    | none => (.error (.imageNotFound payload.image_id), st)
    | some _ =>
      let (server, st') :=
        create_server st newId payload.name payload.flavor_id payload.image_id r now
      (.ok server, st')

/-- `ServerService.get`: ServerNotFound when absent or DELETED. -/
def get (st : MockState) (server_id : String) : Except AppError ServerRecord :=
  match get_server st server_id with
  | none => .error (.serverNotFound server_id)
  | some server =>
    if server.status == ServerStatus.DELETED then .error (.serverNotFound server_id)
    else .ok server

/-- `ServerService.list`: delegates to the backend. -/
def list (st : MockState) (limit offset : Nat) : List ServerRecord × Nat :=
  list_servers st limit offset

/-- `ServerService.update`: ServerNotFound when absent, ServerDeleted when
tombstoned, otherwise renames (no-op when the payload has no name). -/
def update (st : MockState) (server_id : String) (payload : ServerUpdate)
    (now : Nat) : Except AppError ServerRecord × MockState :=
  match get_server st server_id with
  | none => (.error (.serverNotFound server_id), st)
  | some server =>
    if server.status == ServerStatus.DELETED then
      (.error (.serverDeleted server_id), st)
    else
      update_server st server_id (payload.name.getD server.name) now

/-- `ServerService.delete`: ServerNotFound when absent or already DELETED,
otherwise delegates to the backend tombstoning. -/
def delete (st : MockState) (server_id : String) (now : Nat) :
    Except AppError Unit × MockState :=
  match get_server st server_id with
  | none => (.error (.serverNotFound server_id), st)
  | some server =>
    if server.status == ServerStatus.DELETED then
      (.error (.serverNotFound server_id), st)
    else
      delete_server st server_id now

/-- `ServerService.perform_action`: ServerNotFound when absent or DELETED;
InvalidStateTransition(current_status, action) when the action is not
allowed for the current status by VALID_TRANSITIONS; for a resize carrying
a truthy flavor_id the flavor must exist (else FlavorNotFound) and is
forwarded as a kwarg; then delegates to the backend. The action is the raw
string the service compares against (the HTTP schema further restricts it
to ActionType, which is modelled separately). -/
def perform_action (st : MockState) (server_id action : String)
    (flavor_id : Option String) (now : Nat) :
    Except AppError ServerRecord × MockState :=
  match get_server st server_id with
  | none => (.error (.serverNotFound server_id), st)
  | some server =>
    if server.status == ServerStatus.DELETED then
      (.error (.serverNotFound server_id), st)
    else
      match ((VALID_TRANSITIONS server.status).getD []).lookup action with
      | none => (.error (.invalidStateTransition server.status.value action), st)
      | some _ =>
        if action == "resize" && truthy flavor_id then
          let f := flavor_id.getD ""
          match get_flavor st f with
          | none => (.error (.flavorNotFound f), st)
          | some _ => MockOpenStackClient.perform_action st server_id action (some f) now
        else
          MockOpenStackClient.perform_action st server_id action none now

end ServerService

/-- PaginatedResponse from app/schemas/common.py. -/
structure PaginatedResponse (α : Type) where
  items : List α
  total : Nat
  limit : Nat
  offset : Nat
  next_offset : Option Nat
  deriving Repr

/-- `PaginatedResponse.build`: next_offset is offset + limit when another
page exists (offset + limit < total), else None. -/
def PaginatedResponse.build {α : Type} (items : List α)
    (total limit offset : Nat) : PaginatedResponse α :=
  { items := items, total := total, limit := limit, offset := offset,
    next_offset := if offset + limit < total then some (offset + limit) else none }

/-! Concrete fixtures (a small database in the shape of the seed data),
used to instantiate the theorems on explicit inputs. -/

/-- A seeded flavor. -/
def flavorF1 : FlavorRecord :=
  { id := "f1", name := "m1.small", vcpus := 1, ram_mb := 2048, disk_gb := 20 }

/-- A second seeded flavor (resize target). -/
def flavorF2 : FlavorRecord :=
  { id := "f2", name := "m1.large", vcpus := 4, ram_mb := 8192, disk_gb := 80 }

/-- A seeded image. -/
def imageI1 : ImageRecord :=
  { id := "i1", name := "ubuntu-22.04", os_distro := "ubuntu",
    min_disk_gb := 10, size_bytes := 2361393152, status := "active" }

/-- An ACTIVE server. -/
def serverS1 : ServerRecord :=
  { id := "s1", name := "web-01", status := .ACTIVE, flavor_id := "f1",
    image_id := "i1", ip_address := some 0x0A000002,
    created_at := 40, updated_at := 40 }

/-- A server stuck in VERIFY_RESIZE. -/
def serverS2 : ServerRecord :=
  { id := "s2", name := "db-01", status := .VERIFY_RESIZE, flavor_id := "f1",
    image_id := "i1", ip_address := some 0x0A000003,
    created_at := 30, updated_at := 30 }

/-- A server in ERROR status. -/
def serverS3 : ServerRecord :=
  { id := "s3", name := "cache-01", status := .ERROR, flavor_id := "f1",
    image_id := "i1", ip_address := some 0x0A000004,
    created_at := 20, updated_at := 20 }

/-- A tombstoned (DELETED) server. -/
def serverS4 : ServerRecord :=
  { id := "s4", name := "old-01", status := .DELETED, flavor_id := "f1",
    image_id := "i1", ip_address := some 0x0A000005,
    created_at := 10, updated_at := 15 }

/-- The demo database. -/
def stDemo : MockState :=
  { servers := [serverS1, serverS2, serverS3, serverS4],
    flavors := [flavorF1, flavorF2],
    images := [imageI1] }

/-! Helper lemmas shared by the claim theorems. -/

/-- Replacing the row selected by a primary key commutes with the
selecting lookup, provided the replacement keeps the key. -/
theorem find?_updateById (servers : List ServerRecord) (server_id : String)
    (f : ServerRecord → ServerRecord)
    (hf : ∀ s, (s.id == server_id) = true → ((f s).id == server_id) = true) :
    (updateById servers server_id f).find? (fun s => s.id == server_id) =
      (servers.find? (fun s => s.id == server_id)).map f := by
  induction servers with
  | nil => rfl
  | cons s rest ih =>
    by_cases h : (s.id == server_id) = true
    · simp [updateById, h, hf s h]
    · simp [updateById, h, ih]

/-- After replacing the row at a key that was present, lookup returns the
replacement. -/
theorem get_server_updateById (st : MockState) (server_id : String)
    (server updated : ServerRecord)
    (hget : MockOpenStackClient.get_server st server_id = some server)
    (hid : (updated.id == server_id) = true) :
    MockOpenStackClient.get_server
      { st with servers := updateById st.servers server_id (fun _ => updated) }
      server_id = some updated := by
  show (updateById st.servers server_id (fun _ => updated)).find?
      (fun s => s.id == server_id) = some updated
  rw [find?_updateById _ _ _ (fun _ _ => hid)]
  have hget' : st.servers.find? (fun s => s.id == server_id) = some server := hget
  rw [hget']
  rfl

/-- A row returned by `get_server` matches the key queried. -/
theorem get_server_id_matches {st : MockState} {server_id : String}
    {server : ServerRecord}
    (hget : MockOpenStackClient.get_server st server_id = some server) :
    (server.id == server_id) = true := by
  have hget' : st.servers.find? (fun s => s.id == server_id) = some server := hget
  have h2 := List.find?_some hget'
  simpa using h2

/-- Every record a page of `list` returns comes from the store and is not
DELETED. -/
theorem list_mem_characterization {st : MockState} {limit offset : Nat}
    {s : ServerRecord} (hs : s ∈ (ServerService.list st limit offset).1) :
    s ∈ st.servers ∧ s.status ≠ ServerStatus.DELETED := by
  have hs' : s ∈ ((List.insertionSort createdDesc
      (st.servers.filter (fun x => x.status != ServerStatus.DELETED))).drop
        offset).take limit := hs
  have h1 : s ∈ List.insertionSort createdDesc
      (st.servers.filter (fun x => x.status != ServerStatus.DELETED)) :=
    ((List.take_sublist _ _).trans (List.drop_sublist _ _)).subset hs'
  have h2 : s ∈ st.servers.filter (fun x => x.status != ServerStatus.DELETED) := by
    simpa [List.mem_insertionSort] using h1
  have h3 := List.mem_filter.1 h2
  exact ⟨h3.1, by simpa using h3.2⟩

/-- Every page of `list` is sorted most-recently-created first. -/
theorem list_sorted (st : MockState) (limit offset : Nat) :
    List.Sorted createdDesc (ServerService.list st limit offset).1 := by
  have hsorted : List.Sorted createdDesc (List.insertionSort createdDesc
      (st.servers.filter (fun x => x.status != ServerStatus.DELETED))) :=
    List.sorted_insertionSort createdDesc _
  exact List.Pairwise.sublist
    ((List.take_sublist _ _).trans (List.drop_sublist _ _)) hsorted

/-- The total reported by `list` is the number of non-DELETED rows,
independent of the page window. -/
theorem list_total (st : MockState) (limit offset : Nat) :
    (ServerService.list st limit offset).2 =
      (st.servers.filter (fun s => s.status != ServerStatus.DELETED)).length := rfl

/-- Rejection branch of the engine: an action with no entry for the
current status in VALID_TRANSITIONS yields InvalidStateTransition carrying
the status and the action, and leaves the store untouched. -/
theorem perform_action_not_allowed (st : MockState) (server_id action : String)
    (flavor_id : Option String) (now : Nat) (server : ServerRecord)
    (hget : MockOpenStackClient.get_server st server_id = some server)
    (hnd : server.status ≠ ServerStatus.DELETED)
    (hact : ((VALID_TRANSITIONS server.status).getD []).lookup action = none) :
    ServerService.perform_action st server_id action flavor_id now =
      (.error (.invalidStateTransition server.status.value action), st) := by
  unfold ServerService.perform_action
  rw [hget]
  simp [hnd, hact]

/-- The mock transition table is contained in the engine table. -/
theorem mock_lookup_imp_valid (s : ServerStatus) (a : String) (n : ServerStatus)
    (h : ((_ACTION_TRANSITIONS s).getD []).lookup a = some n) :
    ((VALID_TRANSITIONS s).getD []).lookup a = some n := by
  cases s <;> simp_all [_ACTION_TRANSITIONS, VALID_TRANSITIONS]

/-- Success shape of the mock backend action: when the row exists and the
mock table has an entry, the backend returns the updated row (new status,
stamped updated_at) and writes it back at the same key. -/
theorem mock_perform_action_succeeds (st : MockState) (server_id action : String)
    (kf : Option String) (now : Nat) (server : ServerRecord) (next : ServerStatus)
    (hget : MockOpenStackClient.get_server st server_id = some server)
    (htrans : ((_ACTION_TRANSITIONS server.status).getD []).lookup action = some next) :
    ∃ s', MockOpenStackClient.perform_action st server_id action kf now =
        (.ok s', { st with servers := updateById st.servers server_id (fun _ => s') }) ∧
      s'.status = next ∧ s'.updated_at = now ∧
      (∀ g, kf = some g → (action == "resize") = true → s'.flavor_id = g) := by
  unfold MockOpenStackClient.perform_action
  rw [hget]
  dsimp only
  rw [htrans]
  dsimp only
  cases kf with
  | none => exact ⟨_, rfl, rfl, rfl, fun g hg _ => nomatch hg⟩
  | some f =>
    dsimp only
    by_cases hr : (action == "resize") = true
    · rw [if_pos hr]
      exact ⟨_, rfl, rfl, rfl, fun g hg _ => by cases hg; rfl⟩
    · rw [if_neg hr]
      exact ⟨_, rfl, rfl, rfl, fun g hg hr2 => absurd hr2 hr⟩

/-- Inversion of a successful mock backend action: the row existed, the
result has updated_at stamped with the call time, and with no flavor_id
kwarg the flavor reference is unchanged. -/
theorem mock_perform_action_ok {st : MockState} {server_id action : String}
    {kf : Option String} {now : Nat} {s' : ServerRecord} {st' : MockState}
    (h : MockOpenStackClient.perform_action st server_id action kf now = (.ok s', st')) :
    ∃ server, MockOpenStackClient.get_server st server_id = some server ∧
      s'.updated_at = now ∧
      (kf = none → s'.flavor_id = server.flavor_id) := by
  unfold MockOpenStackClient.perform_action at h
  cases hg : MockOpenStackClient.get_server st server_id with
  | none => rw [hg] at h; exact absurd h (by simp)
  | some server =>
    rw [hg] at h
    dsimp only at h
    cases hlk : List.lookup action ((_ACTION_TRANSITIONS server.status).getD []) with
    | none => rw [hlk] at h; exact absurd h (by simp)
    | some next =>
      rw [hlk] at h
      dsimp only at h
      rw [Prod.mk.injEq, Except.ok.injEq] at h
      obtain ⟨h1, _⟩ := h
      refine ⟨server, rfl, ?_, ?_⟩
      · rw [← h1]
      · intro hkf
        subst hkf
        rw [← h1]

/-- Inversion of a successful engine action: the row existed, its
updated_at was stamped with the call time, and unless the action was a
resize the flavor reference is unchanged. -/
theorem perform_action_ok_inv {st : MockState} {server_id action : String}
    {fl : Option String} {now : Nat} {s' : ServerRecord} {st' : MockState}
    (h : ServerService.perform_action st server_id action fl now = (.ok s', st')) :
    ∃ server, MockOpenStackClient.get_server st server_id = some server ∧
      s'.updated_at = now ∧
      (action ≠ "resize" → s'.flavor_id = server.flavor_id) := by
  unfold ServerService.perform_action at h
  cases hg : MockOpenStackClient.get_server st server_id with
  | none => rw [hg] at h; exact absurd h (by simp)
  | some server =>
    rw [hg] at h
    dsimp only at h
    by_cases hdel : (server.status == ServerStatus.DELETED) = true
    · rw [if_pos hdel] at h
      exact absurd h (by simp)
    · rw [if_neg hdel] at h
      cases hlk : List.lookup action ((VALID_TRANSITIONS server.status).getD []) with
      | none => rw [hlk] at h; exact absurd h (by simp)
      | some ns =>
        rw [hlk] at h
        dsimp only at h
        by_cases hcond : (action == "resize" && truthy fl) = true
        · rw [if_pos hcond] at h
          try dsimp only at h
          cases hfl : MockOpenStackClient.get_flavor st (fl.getD "") with
          | none => rw [hfl] at h; exact absurd h (by simp)
          | some fr =>
            rw [hfl] at h
            try dsimp only at h
            obtain ⟨server2, hg2, hupd, _⟩ := mock_perform_action_ok h
            rw [hg] at hg2
            have ha : action = "resize" := by
              have hand := (Bool.and_eq_true _ _).mp hcond
              simpa using hand.1
            exact ⟨server2, hg2, hupd, fun hne => absurd ha hne⟩
        · rw [if_neg hcond] at h
          obtain ⟨server2, hg2, hupd, hflav⟩ := mock_perform_action_ok h
          rw [hg] at hg2
          exact ⟨server2, hg2, hupd, fun _ => hflav rfl⟩

/-! Claim theorems. -/

/-- Claim C2: for every existing, non-DELETED server and every
(status, action) pair not listed in the transition table, perform_action
fails with InvalidStateTransition whose details carry both the current
status and the requested action, and the store is unchanged. -/
theorem c2_invalid_transition_rejected (st : MockState)
    (server_id action : String) (flavor_id : Option String) (now : Nat)
    (server : ServerRecord)
    (hget : MockOpenStackClient.get_server st server_id = some server)
    (hnd : server.status ≠ ServerStatus.DELETED)
    (hact : ((VALID_TRANSITIONS server.status).getD []).lookup action = none) :
    ServerService.perform_action st server_id action flavor_id now =
      (.error (.invalidStateTransition server.status.value action), st) :=
  perform_action_not_allowed st server_id action flavor_id now server hget hnd hact

/-- Witness for C2: the ERROR-status server rejects a start action. -/
theorem c2_witness :
    MockOpenStackClient.get_server stDemo "s3" = some serverS3 ∧
    serverS3.status ≠ ServerStatus.DELETED ∧
    ((VALID_TRANSITIONS serverS3.status).getD []).lookup "start" = none ∧
    ServerService.perform_action stDemo "s3" "start" none 7 =
      (.error (.invalidStateTransition "ERROR" "start"), stDemo) :=
  ⟨by decide, by decide, by decide,
   c2_invalid_transition_rejected stDemo "s3" "start" none 7 serverS3
     (by decide) (by decide) (by decide)⟩

/-- Claim C4: existence check precedes state check — for an ID absent from
the store, get, update, delete and perform_action all fail with
ServerNotFound regardless of the action or payload, and the store is
unchanged. -/
theorem c4_missing_id_not_found (st : MockState) (server_id : String)
    (payload : ServerUpdate) (action : String) (fl : Option String) (now : Nat)
    (hget : MockOpenStackClient.get_server st server_id = none) :
    ServerService.get st server_id = .error (.serverNotFound server_id) ∧
    ServerService.update st server_id payload now =
      (.error (.serverNotFound server_id), st) ∧
    ServerService.delete st server_id now =
      (.error (.serverNotFound server_id), st) ∧
    ServerService.perform_action st server_id action fl now =
      (.error (.serverNotFound server_id), st) := by
  refine ⟨?_, ?_, ?_, ?_⟩
  · unfold ServerService.get
    rw [hget]
  · unfold ServerService.update
    rw [hget]
  · unfold ServerService.delete
    rw [hget]
  · unfold ServerService.perform_action
    rw [hget]

/-- Witness for C4: an unknown ID fails uniformly with ServerNotFound. -/
theorem c4_witness :
    MockOpenStackClient.get_server stDemo "nope" = none ∧
    (ServerService.get stDemo "nope" = .error (.serverNotFound "nope") ∧
     ServerService.update stDemo "nope" ⟨some "x"⟩ 9 =
       (.error (.serverNotFound "nope"), stDemo) ∧
     ServerService.delete stDemo "nope" 9 =
       (.error (.serverNotFound "nope"), stDemo) ∧
     ServerService.perform_action stDemo "nope" "stop" none 9 =
       (.error (.serverNotFound "nope"), stDemo)) :=
  ⟨by decide,
   c4_missing_id_not_found stDemo "nope" ⟨some "x"⟩ "stop" none 9 (by decide)⟩

/-- Claim C8: pagination law — next_offset is null iff offset + limit
reaches the total, otherwise it is offset + limit; the reported total is
the total the page was built from, independent of the window. -/
theorem c8_pagination_law {α : Type} (items : List α)
    (total limit offset : Nat) :
    ((PaginatedResponse.build items total limit offset).next_offset = none ↔
      total ≤ offset + limit) ∧
    (offset + limit < total →
      (PaginatedResponse.build items total limit offset).next_offset =
        some (offset + limit)) ∧
    (PaginatedResponse.build items total limit offset).total = total := by
  unfold PaginatedResponse.build
  by_cases h : offset + limit < total
  · simp [h]
    try omega
  · simp [h]
    try omega

/-- Witness for C8: three records, limit two, first page. -/
theorem c8_witness :
    (PaginatedResponse.build ([10, 20] : List Nat) 3 2 0).next_offset = some 2 :=
  (c8_pagination_law [10, 20] 3 2 0).2.1 (by decide)

/-- Claim C9: list returns only non-DELETED servers drawn from the store,
ordered most-recently-created first, and reports as total the count of all
non-DELETED servers independent of the page window. -/
theorem c9_list_contract (st : MockState) (limit offset : Nat) :
    (∀ s ∈ (ServerService.list st limit offset).1,
      s ∈ st.servers ∧ s.status ≠ ServerStatus.DELETED) ∧
    List.Sorted createdDesc (ServerService.list st limit offset).1 ∧
    (ServerService.list st limit offset).2 =
      (st.servers.filter (fun s => s.status != ServerStatus.DELETED)).length :=
  ⟨fun _ hs => list_mem_characterization hs, list_sorted st limit offset,
   list_total st limit offset⟩

/-- Witness for C9: the first page of the demo store contains the newest
ACTIVE server, which is not DELETED. -/
theorem c9_witness :
    serverS1 ∈ stDemo.servers ∧ serverS1.status ≠ ServerStatus.DELETED :=
  (c9_list_contract stDemo 2 0).1 serverS1 (by decide)

/-- Claim C10: the request schema restricts action to start, stop, reboot
and resize, so no well-formed ServerAction carries confirm_resize, and for
every schema action perform_action on a VERIFY_RESIZE server fails with
InvalidStateTransition. -/
theorem c10_confirm_resize_unreachable :
    (∀ a : ActionType, a.toStr ≠ "confirm_resize") ∧
    (∀ (st : MockState) (server_id : String) (server : ServerRecord)
       (p : ServerAction) (now : Nat),
      MockOpenStackClient.get_server st server_id = some server →
      server.status = ServerStatus.VERIFY_RESIZE →
      ServerService.perform_action st server_id p.action.toStr p.flavor_id now =
        (.error (.invalidStateTransition "VERIFY_RESIZE" p.action.toStr), st)) := by
  constructor
  · intro a
    cases a <;> decide
  · intro st server_id server p now hget hvr
    have hact : ((VALID_TRANSITIONS server.status).getD []).lookup p.action.toStr
        = none := by
      rw [hvr]
      cases p.action <;> decide
    have hres := perform_action_not_allowed st server_id p.action.toStr
      p.flavor_id now server hget (by rw [hvr]; decide) hact
    rw [hres, hvr]
    rfl

/-- Claim C3: a DELETED server is a tombstone — get and perform_action
treat it as nonexistent (ServerNotFound), list excludes it from the
returned records and from the total, and update fails with the distinct
ServerDeleted error. -/
theorem c3_deleted_is_tombstone (st : MockState) (server_id : String)
    (server : ServerRecord) (payload : ServerUpdate) (action : String)
    (fl : Option String) (limit offset now : Nat)
    (hget : MockOpenStackClient.get_server st server_id = some server)
    (hdel : server.status = ServerStatus.DELETED) :
    ServerService.get st server_id = .error (.serverNotFound server_id) ∧
    ServerService.perform_action st server_id action fl now =
      (.error (.serverNotFound server_id), st) ∧
    server ∉ (ServerService.list st limit offset).1 ∧
    (∀ s ∈ (ServerService.list st limit offset).1,
      s.status ≠ ServerStatus.DELETED) ∧
    (ServerService.list st limit offset).2 =
      (st.servers.filter (fun s => s.status != ServerStatus.DELETED)).length ∧
    ServerService.update st server_id payload now =
      (.error (.serverDeleted server_id), st) := by
  refine ⟨?_, ?_, ?_, ?_, ?_, ?_⟩
  · unfold ServerService.get
    rw [hget]
    simp [hdel]
  · unfold ServerService.perform_action
    rw [hget]
    simp [hdel]
  · intro hmem
    exact (list_mem_characterization hmem).2 hdel
  · intro s hs
    exact (list_mem_characterization hs).2
  · exact list_total st limit offset
  · unfold ServerService.update
    rw [hget]
    simp [hdel]

/-- Witness for C3: the tombstoned server of the demo store. -/
theorem c3_witness :
    ServerService.get stDemo "s4" = .error (.serverNotFound "s4") ∧
    ServerService.perform_action stDemo "s4" "start" none 9 =
      (.error (.serverNotFound "s4"), stDemo) ∧
    serverS4 ∉ (ServerService.list stDemo 10 0).1 ∧
    ServerService.update stDemo "s4" ⟨some "renamed"⟩ 9 =
      (.error (.serverDeleted "s4"), stDemo) :=
  ⟨(c3_deleted_is_tombstone stDemo "s4" serverS4 ⟨some "renamed"⟩ "start" none
      10 0 9 (by decide) (by decide)).1,
   (c3_deleted_is_tombstone stDemo "s4" serverS4 ⟨some "renamed"⟩ "start" none
      10 0 9 (by decide) (by decide)).2.1,
   (c3_deleted_is_tombstone stDemo "s4" serverS4 ⟨some "renamed"⟩ "start" none
      10 0 9 (by decide) (by decide)).2.2.1,
   (c3_deleted_is_tombstone stDemo "s4" serverS4 ⟨some "renamed"⟩ "start" none
      10 0 9 (by decide) (by decide)).2.2.2.2.2⟩

/-- Claim C5: delete on an existing non-DELETED server succeeds, setting
status to DELETED and stamping updated_at; a second delete of the same ID
fails with ServerNotFound and leaves the store as it was. -/
theorem c5_delete_succeeds_once (st : MockState) (server_id : String)
    (server : ServerRecord) (now now2 : Nat)
    (hget : MockOpenStackClient.get_server st server_id = some server)
    (hnd : server.status ≠ ServerStatus.DELETED) :
    ∃ st', ServerService.delete st server_id now = (.ok (), st') ∧
      MockOpenStackClient.get_server st' server_id =
        some { server with status := ServerStatus.DELETED, updated_at := now } ∧
      ServerService.delete st' server_id now2 =
        (.error (.serverNotFound server_id), st') := by
  have hid := get_server_id_matches hget
  have hget2 := get_server_updateById st server_id server
    { server with status := ServerStatus.DELETED, updated_at := now } hget hid
  refine ⟨_, ?_, hget2, ?_⟩
  · unfold ServerService.delete MockOpenStackClient.delete_server
    rw [hget]
    simp [hnd]
  · unfold ServerService.delete
    rw [hget2]
    simp

/-- Witness for C5: deleting the ACTIVE demo server, then deleting it
again. -/
theorem c5_witness :
    ∃ st', ServerService.delete stDemo "s1" 50 = (.ok (), st') ∧
      MockOpenStackClient.get_server st' "s1" =
        some { serverS1 with status := ServerStatus.DELETED, updated_at := 50 } ∧
      ServerService.delete st' "s1" 60 =
        (.error (.serverNotFound "s1"), st') :=
  c5_delete_succeeds_once stDemo "s1" serverS1 50 60 (by decide) (by decide)

/-- Claim C6: create fails with FlavorNotFound when the flavor does not
resolve, with ImageNotFound when the image does not resolve, and otherwise
inserts exactly one new record with status ACTIVE and an IP address inside
10.0.0.0/8. -/
theorem c6_create_contract (st : MockState) (payload : ServerCreate)
    (newId : String) (r now : Nat) :
    (MockOpenStackClient.get_flavor st payload.flavor_id = none →
      ServerService.create st payload newId r now =
        (.error (.flavorNotFound payload.flavor_id), st)) ∧
    (∀ fr, MockOpenStackClient.get_flavor st payload.flavor_id = some fr →
      MockOpenStackClient.get_image st payload.image_id = none →
      ServerService.create st payload newId r now =
        (.error (.imageNotFound payload.image_id), st)) ∧
    (∀ fr ir, MockOpenStackClient.get_flavor st payload.flavor_id = some fr →
      MockOpenStackClient.get_image st payload.image_id = some ir →
      ∃ server, ServerService.create st payload newId r now =
          (.ok server, { st with servers := st.servers ++ [server] }) ∧
        server.status = ServerStatus.ACTIVE ∧
        server.id = newId ∧ server.name = payload.name ∧
        server.flavor_id = payload.flavor_id ∧
        server.image_id = payload.image_id ∧
        ∃ ip, server.ip_address = some ip ∧
          0x0A000000 ≤ ip ∧ ip < 0x0B000000) := by
  refine ⟨?_, ?_, ?_⟩
  · intro hf
    unfold ServerService.create
    rw [hf]
  · intro fr hf hi
    unfold ServerService.create
    rw [hf]
    dsimp only
    rw [hi]
  · intro fr ir hf hi
    unfold ServerService.create MockOpenStackClient.create_server
    rw [hf]
    dsimp only
    rw [hi]
    dsimp only
    refine ⟨_, rfl, rfl, rfl, rfl, rfl, rfl, _random_ip r, rfl, ?_, ?_⟩
    · unfold _random_ip
      omega
    · unfold _random_ip
      have hlt : r % 0xFFFFFF < 0xFFFFFF := Nat.mod_lt r (by decide)
      omega

/-- Witness for C6: creating a server against the seeded flavor and
image. -/
theorem c6_witness :
    ∃ server, ServerService.create stDemo ⟨"web-02", "f1", "i1"⟩ "s9" 5 70 =
        (.ok server, { stDemo with servers := stDemo.servers ++ [server] }) ∧
      server.status = ServerStatus.ACTIVE ∧
      server.id = "s9" ∧ server.name = "web-02" ∧
      server.flavor_id = "f1" ∧ server.image_id = "i1" ∧
      ∃ ip, server.ip_address = some ip ∧
        0x0A000000 ≤ ip ∧ ip < 0x0B000000 :=
  (c6_create_contract stDemo ⟨"web-02", "f1", "i1"⟩ "s9" 5 70).2.2
    flavorF1 imageI1 (by decide) (by decide)

/-- Claim C7: resize on an ACTIVE server requires the target flavor to
resolve, else FlavorNotFound with the store untouched; on success the
returned server carries the target flavor, status ACTIVE and a refreshed
updated_at; successful non-resize actions leave flavor_id unchanged; and
every successful action stamps updated_at with the call time. -/
theorem c7_resize_contract (st : MockState) (server_id : String)
    (server : ServerRecord) (now : Nat)
    (hget : MockOpenStackClient.get_server st server_id = some server)
    (hactive : server.status = ServerStatus.ACTIVE) :
    (∀ f, truthy (some f) = true →
      MockOpenStackClient.get_flavor st f = none →
      ServerService.perform_action st server_id "resize" (some f) now =
        (.error (.flavorNotFound f), st)) ∧
    (∀ f fr, truthy (some f) = true →
      MockOpenStackClient.get_flavor st f = some fr →
      ∃ s' st', ServerService.perform_action st server_id "resize" (some f) now =
          (.ok s', st') ∧
        s'.flavor_id = f ∧ s'.updated_at = now ∧
        s'.status = ServerStatus.ACTIVE) ∧
    (∀ (st2 : MockState) (id2 a : String) (fl : Option String) (n2 : Nat)
       (s' : ServerRecord) (st2' : MockState),
      ServerService.perform_action st2 id2 a fl n2 = (.ok s', st2') →
      s'.updated_at = n2) ∧
    (∀ (st2 : MockState) (id2 a : String) (srv : ServerRecord)
       (fl : Option String) (n2 : Nat) (s' : ServerRecord) (st2' : MockState),
      MockOpenStackClient.get_server st2 id2 = some srv → a ≠ "resize" →
      ServerService.perform_action st2 id2 a fl n2 = (.ok s', st2') →
      s'.flavor_id = srv.flavor_id) := by
  have htr : ((_ACTION_TRANSITIONS server.status).getD []).lookup "resize" =
      some ServerStatus.ACTIVE := by
    rw [hactive]
    decide
  have hvalid : ((VALID_TRANSITIONS server.status).getD []).lookup "resize" =
      some ServerStatus.ACTIVE := mock_lookup_imp_valid _ _ _ htr
  have hnd : ¬(server.status == ServerStatus.DELETED) = true := by
    rw [hactive]
    decide
  refine ⟨?_, ?_, ?_, ?_⟩
  · intro f htru hflav
    unfold ServerService.perform_action
    rw [hget]
    try dsimp only
    rw [if_neg hnd, hvalid]
    try dsimp only
    rw [if_pos (by simp [htru]), ]
    try dsimp only
    rw [show (some f).getD "" = f from rfl, hflav]
  · intro f fr htru hflav
    unfold ServerService.perform_action
    rw [hget]
    try dsimp only
    rw [if_neg hnd, hvalid]
    try dsimp only
    rw [if_pos (by simp [htru])]
    try dsimp only
    rw [show (some f).getD "" = f from rfl, hflav]
    try dsimp only
    obtain ⟨s', hrun, hstat, hupd, hflv⟩ := mock_perform_action_succeeds st
      server_id "resize" (some f) now server ServerStatus.ACTIVE hget htr
    exact ⟨s', _, hrun, hflv f rfl (by decide), hupd, hstat⟩
  · intro st2 id2 a fl n2 s' st2' h
    obtain ⟨_, _, hupd, _⟩ := perform_action_ok_inv h
    exact hupd
  · intro st2 id2 a srv fl n2 s' st2' hsrv hne h
    obtain ⟨srv2, hg2, _, hfl⟩ := perform_action_ok_inv h
    rw [hsrv] at hg2
    injection hg2 with he
    rw [he]
    exact hfl hne

/-- Witness for C7: resizing the ACTIVE demo server to the second seeded
flavor. -/
theorem c7_witness :
    ∃ s' st', ServerService.perform_action stDemo "s1" "resize" (some "f2") 9 =
        (.ok s', st') ∧
      s'.flavor_id = "f2" ∧ s'.updated_at = 9 ∧
      s'.status = ServerStatus.ACTIVE :=
  (c7_resize_contract stDemo "s1" serverS1 9 (by decide) (by decide)).2.1
    "f2" flavorF2 (by decide) (by decide)

/-- Claim C1 counterexample: on a server in VERIFY_RESIZE, the requested
confirm_resize action is in the engine transition table, yet perform_action
does not succeed with an ACTIVE server — the reference backend has no
VERIFY_RESIZE entry and its ValueError escapes untyped. -/
theorem c1_counterexample :
    ServerService.perform_action stDemo "s2" "confirm_resize" none 7 =
      (.error (.valueError
        "Cannot perform action confirm_resize on server in status VERIFY_RESIZE"),
       stDemo) := by rfl

/-- Claim C1 (amended): for every existing, non-DELETED server whose
status and action appear in the reference backend transition table
(ACTIVE: stop to SHUTOFF, reboot to ACTIVE, resize to ACTIVE; SHUTOFF:
start to ACTIVE), provided a truthy resize target resolves via the
catalog, perform_action succeeds and returns the server with the table
next status. -/
theorem c1_amended_transitions (st : MockState) (server_id action : String)
    (server : ServerRecord) (next : ServerStatus) (fl : Option String)
    (now : Nat)
    (hget : MockOpenStackClient.get_server st server_id = some server)
    (hnd : server.status ≠ ServerStatus.DELETED)
    (htrans : ((_ACTION_TRANSITIONS server.status).getD []).lookup action =
      some next)
    (hflavor : action = "resize" → truthy fl = true →
      ∃ fr, MockOpenStackClient.get_flavor st (fl.getD "") = some fr) :
    ∃ s' st', ServerService.perform_action st server_id action fl now =
        (.ok s', st') ∧ s'.status = next := by
  have hvalid := mock_lookup_imp_valid server.status action next htrans
  unfold ServerService.perform_action
  rw [hget]
  try dsimp only
  rw [if_neg (by simpa using hnd), hvalid]
  try dsimp only
  by_cases hcond : (action == "resize" && truthy fl) = true
  · rw [if_pos hcond]
    try dsimp only
    have hand := (Bool.and_eq_true _ _).mp hcond
    obtain ⟨fr, hfr⟩ := hflavor (by simpa using hand.1) hand.2
    rw [hfr]
    obtain ⟨s', hrun, hstat, _, _⟩ := mock_perform_action_succeeds st server_id
      action (some (fl.getD "")) now server next hget htrans
    exact ⟨s', _, hrun, hstat⟩
  · rw [if_neg hcond]
    obtain ⟨s', hrun, hstat, _, _⟩ := mock_perform_action_succeeds st server_id
      action none now server next hget htrans
    exact ⟨s', _, hrun, hstat⟩

/-- Witness for C1 (amended): stopping the ACTIVE demo server. -/
theorem c1_witness :
    ∃ s' st', ServerService.perform_action stDemo "s1" "stop" none 9 =
        (.ok s', st') ∧ s'.status = ServerStatus.SHUTOFF :=
  c1_amended_transitions stDemo "s1" "stop" serverS1 ServerStatus.SHUTOFF
    none 9 (by decide) (by decide) (by decide)
    (fun ha => absurd ha (by decide))

/-- Witness for C10: a start request against the VERIFY_RESIZE server. -/
theorem c10_witness :
    MockOpenStackClient.get_server stDemo "s2" = some serverS2 ∧
    serverS2.status = ServerStatus.VERIFY_RESIZE ∧
    ServerService.perform_action stDemo "s2" "start" none 7 =
      (.error (.invalidStateTransition "VERIFY_RESIZE" "start"), stDemo) :=
  ⟨by decide, by decide,
   c10_confirm_resize_unreachable.2 stDemo "s2" serverS2
     ⟨ActionType.start, none⟩ 7 (by decide) (by decide)⟩

end NovaApi
